import Mathlib

/-!
Verification of the fee-payment normalization and aggregation pipeline
(`src/main.py`).  The Python code is shallowly embedded: pandas dataframes
become lists of typed records, the pandas cell values that matter become
small inductive types, and each pipeline function of the source becomes a
Lean function of the same name.  Machine floats do not occur in the claims;
monetary amounts are modelled as integers.
-/

namespace SchoolFees

/-- The closed payment-type enumeration produced by cleaning. -/
inductive PaymentType where
  | CASH
  | ONLINE
  | OTHER
deriving DecidableEq, Repr

/-- A calendar date (no time-of-day). -/
structure Date where
  year : Nat
  month : Nat
  day : Nat
deriving DecidableEq, Repr

/-- A timestamp as produced by `pd.to_datetime`: a calendar date plus a
time-of-day component (seconds past midnight); `dt.date` drops `secs`. -/
structure DateTime where
  date : Date
  secs : Nat
deriving DecidableEq, Repr

/-- One cleaned transaction row (the columns of the cleaned dataframe that
the pipeline reads): `Fees Paid Date` after `pd.to_datetime(errors='coerce')`
(`none` models `NaT`), the derived `Payment Type`, and the coerced
`Paid Amount`. -/
structure CleanRecord where
  feesPaidDate : Option DateTime
  paymentType : PaymentType
  paidAmount : Int
deriving DecidableEq, Repr

/-! ## Calendar arithmetic

`main.py` calls `dt.year`, `dt.month`, `calendar.month_name` and
`dt.isocalendar().week`; the latter is the ISO 8601 week number, which we
implement from the standard algorithm (day-of-week via the civil-calendar
day count, then the ISO week rule). -/

/-- Leap year in the proleptic Gregorian calendar. -/
def isLeap (y : Nat) : Bool :=
  (y % 4 == 0 && y % 100 != 0) || y % 400 == 0

/-- Lengths of the twelve months of year `y`. -/
def monthLengths (y : Nat) : List Nat :=
  [31, if isLeap y then 29 else 28, 31, 30, 31, 30, 31, 31, 30, 31, 30, 31]

/-- Ordinal day of the year (January 1st is day 1). -/
def dayOfYear (d : Date) : Nat :=
  (((monthLengths d.year).take (d.month - 1)).sum) + d.day

/-- Number of days since 0000-03-01 in the proleptic Gregorian calendar
(the standard civil-from-days construction, restricted to `y ≥ 1` so all
arithmetic stays in `Nat`). -/
def dayNumber (d : Date) : Nat :=
  let y := d.year - (if d.month ≤ 2 then 1 else 0)
  let era := y / 400
  let yoe := y % 400
  let mp := (d.month + 9) % 12
  let doy := (153 * mp + 2) / 5 + d.day - 1
  let doe := yoe * 365 + yoe / 4 - yoe / 100 + doy
  era * 146097 + doe

/-- ISO day of week: Monday = 1, …, Sunday = 7. -/
def isoDayOfWeek (d : Date) : Nat :=
  (dayNumber d + 2) % 7 + 1

/-- Auxiliary quantity of the ISO long-year rule: the weekday index of
31 December of year `y`. -/
def isoYearAux (y : Nat) : Nat :=
  (y + y / 4 - y / 100 + y / 400) % 7

/-- Number of ISO weeks in ISO year `y` (52 or 53). -/
def weeksInISOYear (y : Nat) : Nat :=
  if isoYearAux y == 4 || isoYearAux (y - 1) == 3 then 53 else 52

/-- ISO 8601 week number of a date, as returned by
`Series.dt.isocalendar().week`. -/
def isoWeekNumber (d : Date) : Nat :=
  let w := (dayOfYear d + 10 - isoDayOfWeek d) / 7
  if w < 1 then weeksInISOYear (d.year - 1)
  else if w > weeksInISOYear d.year then 1
  else w

/-- Python's `calendar.month_name[m]` (index 0 is the empty string). -/
def month_name (m : Nat) : String :=
  (["", "January", "February", "March", "April", "May", "June", "July",
    "August", "September", "October", "November", "December"]).getD m ""

/-! ## Raw cells and ingestion/cleaning (`clean_data`, lines 10-24)

A raw sheet row carries three cells the pipeline reads.  The `Fees Paid
Date` cell either holds a timestamp (Excel date cells arrive as datetimes)
or unparseable content; the `Payment Details` cell is free text or missing;
the `Paid Amount` cell is a number, text, or missing. -/

/-- The raw `Fees Paid Date` cell. -/
inductive DateCell where
  | val (t : DateTime)
  | invalid (s : String)
  | null
deriving DecidableEq, Repr

/-- The raw `Paid Amount` cell. -/
inductive AmountCell where
  | num (n : Int)
  | text (s : String)
  | null
deriving DecidableEq, Repr

/-- One raw sheet row, restricted to the three columns the pipeline reads.
The source's header promotion (`df.columns = df.iloc[1]`) is modelled by
the named fields; rows 0 and 1 of the sheet are header-like rows that are
also of this shape. -/
structure RawRow where
  feesPaidDate : DateCell
  paymentDetails : Option String
  paidAmount : AmountCell
deriving DecidableEq, Repr

/-- `pd.to_datetime(cell, errors='coerce')`: a datetime value passes
through; unparseable content and missing values coerce to `NaT` (`none`). -/
def parse_date (c : DateCell) : Option DateTime :=
  match c with
  | DateCell.val t => some t
  | DateCell.invalid _ => none
  | DateCell.null => none

/-- Parse a (possibly signed) decimal integer literal, accumulator style. -/
def parseNatAux (acc : Nat) : List Char → Option Nat
  | [] => some acc
  | c :: cs =>
      if c.isDigit then parseNatAux (acc * 10 + (c.toNat - 48)) cs
      else none

/-- Numeric parsing of a string, the integer fragment of `pd.to_numeric`. -/
def parse_numeric_string (s : String) : Option Int :=
  match s.toList with
  | [] => none
  | '-' :: cs =>
      match cs with
      | [] => none
      | _ => (parseNatAux 0 cs).map (fun n => -(n : Int))
  | cs => (parseNatAux 0 cs).map (fun n => (n : Int))

/-- `pd.to_numeric(cell, errors='coerce')`: numbers pass through, numeric
text parses, everything else (including a missing value) coerces to `NaN`
(`none`). -/
def to_numeric (c : AmountCell) : Option Int :=
  match c with
  | AmountCell.num n => some n
  | AmountCell.text s => parse_numeric_string s
  | AmountCell.null => none

/-- Line 23: `pd.to_numeric(df['Paid Amount'], errors='coerce').fillna(0)`. -/
def coerce_amount (c : AmountCell) : Int :=
  (to_numeric c).getD 0

/-- Python's `str.upper()` (ASCII case folding, character by character). -/
def pyUpper (s : String) : String :=
  ⟨s.data.map Char.toUpper⟩

/-- Lines 17-21: `df['Payment Details'].fillna('OTHER')` followed by the
upper-case comparison against `'CASH'` and `'ONLINE'`. -/
def classify_payment (x : Option String) : PaymentType :=
  if pyUpper (x.getD "OTHER") = "CASH" then PaymentType.CASH
  else if pyUpper (x.getD "OTHER") = "ONLINE" then PaymentType.ONLINE
  else PaymentType.OTHER

/-- Cleaning of one data row: each column transform of lines 15-23 applied
to that row's cells. -/
def cleanRow (row : RawRow) : CleanRecord :=
  { feesPaidDate := parse_date row.feesPaidDate
    paymentType := classify_payment row.paymentDetails
    paidAmount := coerce_amount row.paidAmount }

/-- `clean_data` (lines 10-24): drop the two leading header-like rows
(`df.iloc[2:]` after the row-1 column promotion) and clean each remaining
row; no row is ever dropped by the per-column transforms. -/
def clean_data (t : List RawRow) : List CleanRecord :=
  (t.drop 2).map cleanRow

/-! ## Date filter (`get_data_by_date`, lines 27-28) -/

/-- The row predicate of line 28: `df['Fees Paid Date'].dt.date ==
selected_date`.  `dt.date` drops the time-of-day; a `NaT` date compares
unequal to every date. -/
def date_matches (d : Date) (r : CleanRecord) : Bool :=
  match r.feesPaidDate with
  | some t => t.date == d
  | none => false

/-- `get_data_by_date` (lines 27-28): boolean-mask selection, an
order-preserving filter. -/
def get_data_by_date (rs : List CleanRecord) (d : Date) : List CleanRecord :=
  rs.filter (date_matches d)

/-! ## Sorted, deduplicated keys

`groupby` (with its default `sort=True`) and `pd.pivot_table` emit one row
per distinct key, in ascending key order; `insSD` inserts a key into a
sorted duplicate-free list, skipping keys already present. -/

/-- Insert into a strictly sorted list, dropping duplicates; the order is
given by boolean comparators. -/
def insSDBy {α : Type} (ltB eqB : α → α → Bool) (x : α) : List α → List α
  | [] => [x]
  | y :: ys =>
      if ltB x y then x :: y :: ys
      else if eqB x y then y :: ys
      else y :: insSDBy ltB eqB x ys

/-- The distinct values of a list in ascending comparator order. -/
def sortedDedupBy {α : Type} (ltB eqB : α → α → Bool) (l : List α) : List α :=
  l.foldr (insSDBy ltB eqB) []

/-- Strict comparison of `Nat` keys. -/
def natLtB (a b : Nat) : Bool := decide (a < b)

/-- Equality of `Nat` keys. -/
def natEqB (a b : Nat) : Bool := a == b

/-- Strict comparison of `String` keys (lexicographic on the character
list, which is how pandas orders string labels). -/
def strLtB (s t : String) : Bool := decide (s.data < t.data)

/-- Equality of `String` keys. -/
def strEqB (s t : String) : Bool := s == t

/-! ## Time bucketing (`create_time_summaries`, lines 31-58)

`groupby` drops rows whose key contains a missing value, so records with
`feesPaidDate = NaT` join no group; `datedPairs` performs that restriction.
Group keys are emitted in ascending lexicographic key order, the payment
types in their string order CASH < ONLINE < OTHER. -/

/-- The date-bearing records, paired with their calendar date; rows with
`NaT` are dropped, exactly as `groupby` drops missing keys. -/
def datedPairs (rs : List CleanRecord) : List (Date × CleanRecord) :=
  rs.filterMap (fun r => r.feesPaidDate.map (fun t => (t.date, r)))

/-- One monthly group row: key `(year, month, paymentType)` with the
group's `Paid Amount` sum. -/
structure MonthGroup where
  year : Nat
  month : Nat
  ptype : PaymentType
  sumAmount : Int
deriving DecidableEq, Repr

/-- One weekly group row: key `(year, isoWeek, paymentType)` with the
group's `Paid Amount` sum. -/
structure WeekGroup where
  year : Nat
  week : Nat
  ptype : PaymentType
  sumAmount : Int
deriving DecidableEq, Repr

/-- The canonical enumeration of the payment types, in their pandas string
sort order. -/
def allPaymentTypes : List PaymentType :=
  [PaymentType.CASH, PaymentType.ONLINE, PaymentType.OTHER]

/-- Members of the monthly group keyed `(y, m, t)`. -/
def monthly_members (ps : List (Date × CleanRecord)) (y m : Nat)
    (t : PaymentType) : List (Date × CleanRecord) :=
  ps.filter (fun q => q.1.year == y && q.1.month == m && q.2.paymentType == t)

/-- Lines 34-38: `df.groupby([dt.year, dt.month, 'Payment Type'])['Paid
Amount'].sum()` over the date-bearing pairs: one row per non-empty key, in
ascending key order. -/
def monthly_groups_of (ps : List (Date × CleanRecord)) : List MonthGroup :=
  (sortedDedupBy natLtB natEqB (ps.map (fun q => q.1.year))).flatMap (fun y =>
    (sortedDedupBy natLtB natEqB ((ps.filter (fun q => q.1.year == y)).map
        (fun q => q.1.month))).flatMap (fun m =>
      (allPaymentTypes.filter
          (fun t => !(monthly_members ps y m t).isEmpty)).map (fun t =>
        { year := y, month := m, ptype := t,
          sumAmount :=
            ((monthly_members ps y m t).map
              (fun q => q.2.paidAmount)).sum })))

/-- The monthly grouping of a cleaned dataset. -/
def monthly_groups (rs : List CleanRecord) : List MonthGroup :=
  monthly_groups_of (datedPairs rs)

/-- Members of the weekly group keyed `(y, w, t)`; the week of a row is the
ISO week number of its date (line 46). -/
def weekly_members (ps : List (Date × CleanRecord)) (y w : Nat)
    (t : PaymentType) : List (Date × CleanRecord) :=
  ps.filter (fun q =>
    q.1.year == y && isoWeekNumber q.1 == w && q.2.paymentType == t)

/-- Lines 46-51: `df.groupby([dt.year, 'Week', 'Payment Type'])['Paid
Amount'].sum()` over the date-bearing pairs, where `Week` is the ISO week
number; the year key is the calendar year of the date, not the ISO week
year. -/
def weekly_groups_of (ps : List (Date × CleanRecord)) : List WeekGroup :=
  (sortedDedupBy natLtB natEqB (ps.map (fun q => q.1.year))).flatMap (fun y =>
    (sortedDedupBy natLtB natEqB ((ps.filter (fun q => q.1.year == y)).map
        (fun q => isoWeekNumber q.1))).flatMap (fun w =>
      (allPaymentTypes.filter
          (fun t => !(weekly_members ps y w t).isEmpty)).map (fun t =>
        { year := y, week := w, ptype := t,
          sumAmount :=
            ((weekly_members ps y w t).map
              (fun q => q.2.paidAmount)).sum })))

/-- The weekly grouping of a cleaned dataset. -/
def weekly_groups (rs : List CleanRecord) : List WeekGroup :=
  weekly_groups_of (datedPairs rs)

/-! ## The dataframe object and `create_time_summaries` as executed

`create_time_summaries` receives the caller's dataframe object.  Beyond the
cleaned records it carries the optional derived `Week` column, because line
46 (`df['Week'] = df['Fees Paid Date'].dt.isocalendar().week`) assigns that
column in place on the object it was passed.

The monthly `groupby` keys `dt.year` and `dt.month` are accessor results of
the column `Fees Paid Date` and both keep that series name, so
`.reset_index()` on the aggregate (which inserts one column per index
level) raises `ValueError: cannot insert Fees Paid Date, already exists`.
Had it not, the label lambdas read columns `'Month'`/`'Year'` (monthly) and
`'Year'` (weekly) that the frame does not contain, raising `KeyError`.
`create_time_summaries` therefore models each statement in source order and
propagates the first raised error, returning the dataframe state reached at
that point. -/

/-- The dataframe object threaded through the pipeline. -/
structure DF where
  records : List CleanRecord
  weekCol : Option (List (Option Nat))
deriving DecidableEq, Repr

/-- Line 46: `df['Week'] = df['Fees Paid Date'].dt.isocalendar().week`,
an in-place column assignment on the frame it is applied to (`NaT` dates
yield a missing week value). -/
def week_assign (df : DF) : DF :=
  { df with
    weekCol :=
      some (df.records.map (fun r =>
        r.feesPaidDate.map (fun t => isoWeekNumber t.date))) }

/-- `reset_index` as column insertion: each index-level name is inserted
into the frame's column list; inserting a name that is already present
raises. -/
def insertCols (acc : List String) : List String → Except String (List String)
  | [] => Except.ok acc
  | n :: ns =>
      if acc.contains n then
        Except.error ("cannot insert " ++ n ++ ", already exists")
      else insertCols (acc ++ [n]) ns

/-- The index-level names of the monthly `groupby`: `dt.year` and `dt.month`
both inherit the series name `Fees Paid Date`. -/
def monthly_index_names : List String :=
  ["Fees Paid Date", "Fees Paid Date", "Payment Type"]

/-- The index-level names of the weekly `groupby`: the year accessor keeps
the name `Fees Paid Date`; `Week` is a real column. -/
def weekly_index_names : List String :=
  ["Fees Paid Date", "Week", "Payment Type"]

/-- `DataFrame.apply(lambda x: ..., axis=1)` building the `Period` column:
on a non-empty frame the lambda runs per row and its column lookups must
succeed; on an empty frame the lambda never runs. -/
def apply_label {α : Type} (cols : List String) (needed : List String)
    (rows : List α) (f : α → String) : Except String (List String) :=
  if rows.isEmpty then Except.ok []
  else if needed.all (fun c => cols.contains c) then Except.ok (rows.map f)
  else Except.error "KeyError"

/-- The intended monthly `Period` label of line 41:
`f"{calendar.month_name[int(x['Month'])]} {int(x['Year'])}"`. -/
def month_label (g : MonthGroup) : String :=
  month_name g.month ++ " " ++ toString g.year

/-- The intended weekly `Period` label of line 54:
`f"Week {int(x['Week'])}, {int(x['Year'])}"`. -/
def week_label (g : WeekGroup) : String :=
  "Week " ++ toString g.week ++ ", " ++ toString g.year

/-- `create_time_summaries` (lines 31-58), statement by statement, threading
the dataframe state and stopping at the first raised error. -/
def create_time_summaries (df : DF) :
    Except String (List String × List String) × DF :=
  let mG := monthly_groups df.records
  match insertCols ["Paid Amount"] monthly_index_names with
  | Except.error e => (Except.error e, df)
  | Except.ok mcols =>
    match apply_label mcols ["Month", "Year"] mG month_label with
    | Except.error e => (Except.error e, df)
    | Except.ok mPeriods =>
      let df2 := week_assign df
      let wG := weekly_groups df2.records
      match insertCols ["Paid Amount"] weekly_index_names with
      | Except.error e => (Except.error e, df2)
      | Except.ok wcols =>
        match apply_label wcols ["Week", "Year"] wG week_label with
        | Except.error e => (Except.error e, df2)
        | Except.ok wPeriods => (Except.ok (mPeriods, wPeriods), df2)

/-! ## Category summarizer (`display_payment_summary_table`, lines 61-67) -/

/-- Records of payment type `t`. -/
def matches_type (t : PaymentType) (r : CleanRecord) : Bool :=
  r.paymentType == t

/-- The `Paid Amount` sum of the records of type `t`. -/
def type_sum (rs : List CleanRecord) (t : PaymentType) : Int :=
  ((rs.filter (matches_type t)).map CleanRecord.paidAmount).sum

/-- The number of records of type `t` (post-cleaning, `Paid Amount` is
never missing, so pandas `count` is the group size). -/
def type_count (rs : List CleanRecord) (t : PaymentType) : Nat :=
  (rs.filter (matches_type t)).length

/-- The payment types that occur in the record set (the non-empty groups),
in their string sort order. -/
def present_types (rs : List CleanRecord) : List PaymentType :=
  allPaymentTypes.filter (fun t => rs.any (matches_type t))

/-- Line 66: `df.groupby('Payment Type')['Paid Amount'].agg(['sum',
'count'])`: one `(type, sum, count)` row per occurring payment type. -/
def payment_summary (rs : List CleanRecord) :
    List (PaymentType × Int × Nat) :=
  (present_types rs).map (fun t => (t, type_sum rs t, type_count rs t))

/-- `display_payment_summary_table` (lines 61-67): optional date scoping
(line 64) followed by the aggregation. -/
def display_payment_summary_table (rs : List CleanRecord)
    (d : Option Date) : List (PaymentType × Int × Nat) :=
  payment_summary (match d with
    | some dd => get_data_by_date rs dd
    | none => rs)

/-! ## Pivot builder (lines 190-198 / 208-216 of `main`) -/

/-- One long-form row fed to `pd.pivot_table`: `Period`, `Payment Type`,
`Paid Amount`. -/
structure PeriodRow where
  period : String
  ptype : PaymentType
  amount : Int
deriving DecidableEq, Repr

/-- One wide pivot row after the `Total` computation. -/
structure PivotRow where
  period : String
  cash : Int
  online : Int
  other : Int
  total : Int
deriving DecidableEq, Repr

/-- The aggregate of one pivot cell: the `sumAmount` total of the input
rows with the given `(period, paymentType)` pair (`fill_value=0` gives 0
when no such row exists). -/
def cell_sum (rows : List PeriodRow) (p : String) (t : PaymentType) : Int :=
  ((rows.filter (fun r => r.period == p && r.ptype == t)).map
    PeriodRow.amount).sum

/-- The payment-type columns `pd.pivot_table` materializes: one per type
occurring in the input rows. -/
def present_ptype_cols (rows : List PeriodRow) : List PaymentType :=
  allPaymentTypes.filter (fun t => rows.any (fun r => r.ptype == t))

/-- Lines 190-198: `pd.pivot_table(..., index='Period', columns='Payment
Type', aggfunc='sum', fill_value=0).reset_index()` followed by
`pivot[['CASH', 'ONLINE', 'OTHER']].sum(axis=1)`.  `pivot_table` emits one
row per distinct `Period`, sorted ascending by label; the `Total` column
selection raises `KeyError` if any of the three type columns was not
materialized. -/
def pivot_with_total (rows : List PeriodRow) : Except String (List PivotRow) :=
  let cols := present_ptype_cols rows
  if cols.contains PaymentType.CASH && cols.contains PaymentType.ONLINE
      && cols.contains PaymentType.OTHER then
    Except.ok ((sortedDedupBy strLtB strEqB (rows.map PeriodRow.period)).map (fun p =>
      let c := cell_sum rows p PaymentType.CASH
      let o := cell_sum rows p PaymentType.ONLINE
      let oth := cell_sum rows p PaymentType.OTHER
      { period := p, cash := c, online := o, other := oth,
        total := c + o + oth }))
  else Except.error "KeyError: missing payment type column"

/-! ## Full-dataset totals (lines 228-229) -/

/-- Line 228: `df['Paid Amount'].sum()`. -/
def total_collection (rs : List CleanRecord) : Int :=
  (rs.map CleanRecord.paidAmount).sum

/-- Line 229: `len(df)`. -/
def total_transactions (rs : List CleanRecord) : Nat :=
  rs.length

/-! ## Concrete sample data used by witnesses -/

/-- A CASH record on 2024-01-05 (midnight). -/
def rA : CleanRecord := ⟨some ⟨⟨2024, 1, 5⟩, 0⟩, PaymentType.CASH, 100⟩

/-- An ONLINE record on 2024-01-05 with a non-zero time of day. -/
def rB : CleanRecord := ⟨some ⟨⟨2024, 1, 5⟩, 3600⟩, PaymentType.ONLINE, 50⟩

/-- A CASH record on 2024-02-01. -/
def rD : CleanRecord := ⟨some ⟨⟨2024, 2, 1⟩, 0⟩, PaymentType.CASH, 20⟩

/-- A record whose date failed to parse (`NaT`). -/
def rC : CleanRecord := ⟨none, PaymentType.OTHER, 7⟩

/-- A small cleaned dataset. -/
def sample_records : List CleanRecord := [rA, rB, rD, rC]

/-! ## Properties of `insSDBy` / `sortedDedupBy`

The comparators are tied to a linear order through the two `iff`
hypotheses; `strLtB_iff` and `natLtB_iff` below discharge them for the two
key types in use. -/

theorem mem_insSDBy {α : Type} (ltB eqB : α → α → Bool)
    (heq : ∀ a b : α, eqB a b = true ↔ a = b) (x a : α) (l : List α) :
    a ∈ insSDBy ltB eqB x l ↔ a = x ∨ a ∈ l := by
  induction l with
  | nil => simp [insSDBy]
  | cons y ys ih =>
    cases h1 : ltB x y with
    | true => simp [insSDBy, h1]
    | false =>
      cases h2 : eqB x y with
      | true =>
        have hxy : x = y := (heq x y).mp h2
        subst hxy
        simp only [insSDBy, h1, h2, Bool.false_eq_true, if_false, if_true,
          List.mem_cons]
        tauto
      | false =>
        simp only [insSDBy, h1, h2, Bool.false_eq_true, if_false,
          List.mem_cons, ih]
        tauto

theorem pairwise_insSDBy {α : Type} [LinearOrder α] (ltB eqB : α → α → Bool)
    (hlt : ∀ a b : α, ltB a b = true ↔ a < b)
    (heq : ∀ a b : α, eqB a b = true ↔ a = b) (x : α) (l : List α)
    (h : l.Pairwise (· < ·)) : (insSDBy ltB eqB x l).Pairwise (· < ·) := by
  induction l with
  | nil => simp [insSDBy]
  | cons y ys ih =>
    rcases List.pairwise_cons.mp h with ⟨hy, hys⟩
    cases h1 : ltB x y with
    | true =>
      rw [show insSDBy ltB eqB x (y :: ys) = x :: y :: ys by
        simp [insSDBy, h1]]
      refine List.pairwise_cons.mpr ⟨?_, h⟩
      intro b hb
      rcases List.mem_cons.mp hb with hb | hb
      · exact hb ▸ (hlt x y).mp h1
      · exact lt_trans ((hlt x y).mp h1) (hy b hb)
    | false =>
      cases h2 : eqB x y with
      | true =>
        rw [show insSDBy ltB eqB x (y :: ys) = y :: ys by
          simp [insSDBy, h1, h2]]
        exact h
      | false =>
        have hxy : ¬ x < y := fun hc => by
          rw [(hlt x y).mpr hc] at h1
          exact Bool.true_eq_false.mp h1
        have hne : x ≠ y := fun hc => by
          rw [(heq x y).mpr hc] at h2
          exact Bool.true_eq_false.mp h2
        have hyx : y < x := lt_of_le_of_ne (not_lt.mp hxy) (Ne.symm hne)
        rw [show insSDBy ltB eqB x (y :: ys) = y :: insSDBy ltB eqB x ys by
          simp [insSDBy, h1, h2]]
        refine List.pairwise_cons.mpr ⟨?_, ih hys⟩
        intro b hb
        rcases (mem_insSDBy ltB eqB heq x b ys).mp hb with hb | hb
        · exact hb ▸ hyx
        · exact hy b hb

theorem mem_sortedDedupBy {α : Type} (ltB eqB : α → α → Bool)
    (heq : ∀ a b : α, eqB a b = true ↔ a = b) (l : List α) (a : α) :
    a ∈ sortedDedupBy ltB eqB l ↔ a ∈ l := by
  induction l with
  | nil => simp [sortedDedupBy]
  | cons x xs ih =>
    show a ∈ insSDBy ltB eqB x (sortedDedupBy ltB eqB xs) ↔ _
    rw [mem_insSDBy ltB eqB heq, ih, List.mem_cons]

theorem pairwise_sortedDedupBy {α : Type} [LinearOrder α]
    (ltB eqB : α → α → Bool) (hlt : ∀ a b : α, ltB a b = true ↔ a < b)
    (heq : ∀ a b : α, eqB a b = true ↔ a = b) (l : List α) :
    (sortedDedupBy ltB eqB l).Pairwise (· < ·) := by
  induction l with
  | nil => simp [sortedDedupBy]
  | cons x xs ih =>
    exact pairwise_insSDBy ltB eqB hlt heq x (sortedDedupBy ltB eqB xs) ih

theorem natLtB_iff (a b : Nat) : natLtB a b = true ↔ a < b := by
  simp [natLtB]

theorem natEqB_iff (a b : Nat) : natEqB a b = true ↔ a = b := by
  simp [natEqB]

theorem strLtB_iff (s t : String) : strLtB s t = true ↔ s < t := by
  simp only [strLtB, decide_eq_true_eq]
  exact Iff.symm String.lt_iff_toList_lt

theorem strEqB_iff (s t : String) : strEqB s t = true ↔ s = t := by
  simp [strEqB]

/-! ## Claim theorems -/

/-- Claim C2: for every raw table with two leading header-like rows followed
by `n` data rows, `clean_data` produces exactly `n` records — one per data
row, no row is ever dropped, whatever the parse failures in its cells. -/
theorem clean_data_totality (t : List RawRow) (n : Nat)
    (h : t.length = n + 2) : (clean_data t).length = n := by
  simp [clean_data, h]

/-- A header-like row 0 (discarded entirely). -/
def hdr0 : RawRow :=
  ⟨DateCell.invalid "SRI BASARA SCHOOL", some "Fee Report",
    AmountCell.text "2024"⟩

/-- The header row 1 that supplies the column names. -/
def hdr1 : RawRow :=
  ⟨DateCell.invalid "Fees Paid Date", some "Payment Details",
    AmountCell.text "Paid Amount"⟩

/-- A data row on which all three parses fail. -/
def rawGarbage : RawRow :=
  ⟨DateCell.invalid "13/45/20xx", none, AmountCell.text "N/A"⟩

/-- A three-row raw table: the two header-like rows plus one unparseable
data row. -/
def sample_raw : List RawRow := [hdr0, hdr1, rawGarbage]

/-- Claim C2 witness: the three-row table with an entirely unparseable data
row still yields exactly one record. -/
theorem clean_data_totality_witness :
    sample_raw.length = 1 + 2 ∧ (clean_data sample_raw).length = 1 :=
  ⟨rfl, clean_data_totality sample_raw 1 rfl⟩

/-- Claim C3: payment classification is total into the three-value
enumeration; a missing value classifies to OTHER, a value case-insensitively
equal to CASH (resp. ONLINE) classifies to CASH (resp. ONLINE), and
everything else to OTHER. -/
theorem classify_payment_spec :
    classify_payment none = PaymentType.OTHER ∧
    (∀ s : String, classify_payment (some s) =
      if pyUpper s = "CASH" then PaymentType.CASH
      else if pyUpper s = "ONLINE" then PaymentType.ONLINE
      else PaymentType.OTHER) ∧
    (∀ x : Option String, classify_payment x = PaymentType.CASH ∨
      classify_payment x = PaymentType.ONLINE ∨
      classify_payment x = PaymentType.OTHER) := by
  refine ⟨by decide, fun s => rfl, fun x => ?_⟩
  unfold classify_payment
  split_ifs <;> simp

/-- Claim C4: amount coercion sends every unparseable or missing amount to
exactly 0 and passes every parsed numeric amount (negatives included)
through unchanged. -/
theorem coerce_amount_spec :
    coerce_amount AmountCell.null = 0 ∧
    (∀ s : String, to_numeric (AmountCell.text s) = none →
      coerce_amount (AmountCell.text s) = 0) ∧
    (∀ n : Int, coerce_amount (AmountCell.num n) = n) ∧
    (∀ (s : String) (n : Int), to_numeric (AmountCell.text s) = some n →
      coerce_amount (AmountCell.text s) = n) := by
  refine ⟨rfl, fun s h => ?_, fun n => rfl, fun s n h => ?_⟩
  · simp [coerce_amount, h]
  · simp [coerce_amount, h]

/-- Claim C4 witness: `"not a number"` and a missing value coerce to 0, the
negative amount `-250` and the numeric text `"450"` pass through. -/
theorem coerce_amount_spec_witness :
    to_numeric (AmountCell.text "not a number") = none ∧
    coerce_amount (AmountCell.text "not a number") = 0 ∧
    coerce_amount (AmountCell.num (-250)) = -250 ∧
    to_numeric (AmountCell.text "450") = some 450 ∧
    coerce_amount (AmountCell.text "450") = 450 :=
  ⟨rfl, coerce_amount_spec.2.1 "not a number" rfl,
    coerce_amount_spec.2.2.1 (-250), rfl,
    coerce_amount_spec.2.2.2 "450" 450 rfl⟩

/-- Claim C5: `get_data_by_date` returns an order-preserving subsequence
holding exactly the records whose date part equals the target (time-of-day
ignored); records with an absent date never match; zero matches give the
empty list. -/
theorem get_data_by_date_spec (rs : List CleanRecord) (d : Date) :
    List.Sublist (get_data_by_date rs d) rs ∧
    (∀ r : CleanRecord,
      r ∈ get_data_by_date rs d ↔ r ∈ rs ∧ date_matches d r = true) ∧
    (∀ (r : CleanRecord) (t : DateTime), r.feesPaidDate = some t →
      (date_matches d r = true ↔ t.date = d)) ∧
    (∀ r : CleanRecord, r.feesPaidDate = none →
      r ∉ get_data_by_date rs d) ∧
    ((∀ r ∈ rs, date_matches d r = false) → get_data_by_date rs d = []) := by
  refine ⟨List.filter_sublist _, fun r => List.mem_filter,
    fun r t ht => ?_, fun r hr hmem => ?_, fun hall => ?_⟩
  · simp [date_matches, ht]
  · have := (List.mem_filter.mp hmem).2
    simp [date_matches, hr] at this
  · refine List.filter_eq_nil_iff.mpr ?_
    intro a ha
    simp [hall a ha]

/-- The selected date of the C5 witness. -/
def dSel : Date := ⟨2024, 1, 5⟩

/-- A date on which the sample dataset has no record. -/
def dNone : Date := ⟨2030, 1, 1⟩

/-- Claim C5 witness: on the sample dataset, the midnight record on the
selected date is returned (its sibling with a later time of day matches
too), the dateless record is never returned, and a zero-match date yields
the empty list. -/
theorem get_data_by_date_spec_witness :
    rA ∈ get_data_by_date sample_records dSel ∧
    rB ∈ get_data_by_date sample_records dSel ∧
    rC ∉ get_data_by_date sample_records dSel ∧
    get_data_by_date sample_records dNone = [] :=
  ⟨((get_data_by_date_spec sample_records dSel).2.1 rA).mpr
      ⟨by simp [sample_records], rfl⟩,
    ((get_data_by_date_spec sample_records dSel).2.1 rB).mpr
      ⟨by simp [sample_records], rfl⟩,
    (get_data_by_date_spec sample_records dSel).2.2.2.1 rC rfl,
    (get_data_by_date_spec sample_records dNone).2.2.2.2 (by decide)⟩

/-! ## Conservation of the category summary (C6) -/

theorem type_sum_of_absent (rs : List CleanRecord) (t : PaymentType)
    (h : rs.any (matches_type t) = false) : type_sum rs t = 0 := by
  induction rs with
  | nil => simp [type_sum]
  | cons r rs ih =>
    rw [List.any_cons, Bool.or_eq_false_iff] at h
    have h1 : ¬ (matches_type t r = true) := by simp [h.1]
    show ((List.filter (matches_type t) (r :: rs)).map
      CleanRecord.paidAmount).sum = 0
    rw [List.filter_cons, if_neg h1]
    exact ih h.2

theorem type_count_of_absent (rs : List CleanRecord) (t : PaymentType)
    (h : rs.any (matches_type t) = false) : type_count rs t = 0 := by
  induction rs with
  | nil => simp [type_count]
  | cons r rs ih =>
    rw [List.any_cons, Bool.or_eq_false_iff] at h
    have h1 : ¬ (matches_type t r = true) := by simp [h.1]
    show (List.filter (matches_type t) (r :: rs)).length = 0
    rw [List.filter_cons, if_neg h1]
    exact ih h.2

theorem type_sum_three (rs : List CleanRecord) :
    type_sum rs PaymentType.CASH + type_sum rs PaymentType.ONLINE +
      type_sum rs PaymentType.OTHER = total_collection rs := by
  induction rs with
  | nil => simp [type_sum, total_collection]
  | cons r rs ih =>
    cases h : r.paymentType <;>
      simp [type_sum, total_collection, matches_type, List.filter_cons, h]
        at * <;>
      omega

theorem type_count_three (rs : List CleanRecord) :
    type_count rs PaymentType.CASH + type_count rs PaymentType.ONLINE +
      type_count rs PaymentType.OTHER = total_transactions rs := by
  induction rs with
  | nil => simp [type_count, total_transactions]
  | cons r rs ih =>
    cases h : r.paymentType <;>
      simp [type_count, total_transactions, matches_type, List.filter_cons, h]
        at * <;>
      omega

theorem filter_presence_sum (rs : List CleanRecord) (l : List PaymentType) :
    (((l.filter (fun t => rs.any (matches_type t))).map
      (type_sum rs)).sum : Int) = ((l.map (type_sum rs)).sum : Int) := by
  induction l with
  | nil => simp
  | cons t ts ih =>
    cases h : rs.any (matches_type t) with
    | false =>
        simp [List.filter_cons, h, ih, type_sum_of_absent rs t h]
    | true => simp [List.filter_cons, h, ih]

theorem filter_presence_count (rs : List CleanRecord) (l : List PaymentType) :
    (((l.filter (fun t => rs.any (matches_type t))).map
      (type_count rs)).sum : Nat) = ((l.map (type_count rs)).sum : Nat) := by
  induction l with
  | nil => simp
  | cons t ts ih =>
    cases h : rs.any (matches_type t) with
    | false =>
        simp [List.filter_cons, h, ih, type_count_of_absent rs t h]
    | true => simp [List.filter_cons, h, ih]

/-- Claim C6: the category summary conserves totals — summing the per-type
amount sums over the emitted rows gives the whole dataset's amount sum, and
summing the per-type counts gives the number of records. -/
theorem payment_summary_conservation (rs : List CleanRecord) :
    ((payment_summary rs).map (fun x => x.2.1)).sum = total_collection rs ∧
    ((payment_summary rs).map (fun x => x.2.2)).sum = total_transactions rs := by
  constructor
  · have h1 : (payment_summary rs).map (fun x => x.2.1) =
        (present_types rs).map (type_sum rs) := by
      simp [payment_summary, List.map_map, Function.comp]
    rw [h1]
    unfold present_types
    rw [filter_presence_sum]
    have := type_sum_three rs
    simp [allPaymentTypes]
    omega
  · have h1 : (payment_summary rs).map (fun x => x.2.2) =
        (present_types rs).map (type_count rs) := by
      simp [payment_summary, List.map_map, Function.comp]
    rw [h1]
    unfold present_types
    rw [filter_presence_count]
    have := type_count_three rs
    simp [allPaymentTypes]
    omega

/-! ## The dateless-record invariant (C7) -/

theorem datedPairs_middle (rs₁ rs₂ : List CleanRecord) (r : CleanRecord)
    (h : r.feesPaidDate = none) :
    datedPairs (rs₁ ++ r :: rs₂) = datedPairs (rs₁ ++ rs₂) := by
  simp [datedPairs, List.filterMap_append, List.filterMap_cons, h]

/-- Claim C7: a record whose `feesPaidDate` is absent is excluded from
every `get_data_by_date` selection and leaves the monthly and weekly
groupings unchanged, yet its amount and its presence still count in the
full-dataset totals. -/
theorem dateless_record_invariant (rs₁ rs₂ : List CleanRecord)
    (r : CleanRecord) (h : r.feesPaidDate = none) :
    (∀ d : Date,
      get_data_by_date (rs₁ ++ r :: rs₂) d = get_data_by_date (rs₁ ++ rs₂) d) ∧
    monthly_groups (rs₁ ++ r :: rs₂) = monthly_groups (rs₁ ++ rs₂) ∧
    weekly_groups (rs₁ ++ r :: rs₂) = weekly_groups (rs₁ ++ rs₂) ∧
    total_collection (rs₁ ++ r :: rs₂) =
      total_collection (rs₁ ++ rs₂) + r.paidAmount ∧
    total_transactions (rs₁ ++ r :: rs₂) =
      total_transactions (rs₁ ++ rs₂) + 1 := by
  refine ⟨fun d => ?_, ?_, ?_, ?_, ?_⟩
  · simp [get_data_by_date, List.filter_append, List.filter_cons,
      date_matches, h]
  · unfold monthly_groups
    rw [datedPairs_middle rs₁ rs₂ r h]
  · unfold weekly_groups
    rw [datedPairs_middle rs₁ rs₂ r h]
  · simp [total_collection]
    ring
  · simp [total_transactions]
    omega

/-- Claim C7 witness: appending the dateless record to the singleton
dataset changes no date-keyed view but shifts both totals. -/
theorem dateless_record_invariant_witness :
    get_data_by_date [rA, rC] dSel = get_data_by_date [rA] dSel ∧
    monthly_groups [rA, rC] = monthly_groups [rA] ∧
    weekly_groups [rA, rC] = weekly_groups [rA] ∧
    total_collection [rA, rC] = total_collection [rA] + rC.paidAmount ∧
    total_transactions [rA, rC] = total_transactions [rA] + 1 := by
  have h := dateless_record_invariant [rA] [] rC rfl
  exact ⟨h.1 dSel, h.2.1, h.2.2.1, h.2.2.2.1, h.2.2.2.2⟩

/-! ## The pivot builder's missing-column failure (C1) -/

/-- A bucket-row set whose only payment type is CASH. -/
def lonely_cash_row : PeriodRow := ⟨"January 2024", PaymentType.CASH, 100⟩

/-- Claim C1 failing input evaluated: on a bucket set in which ONLINE and
OTHER occur nowhere, the pivot builder does not emit a zero-filled row — the
column selection `[['CASH', 'ONLINE', 'OTHER']]` raises instead of
defaulting the absent columns to 0. -/
theorem pivot_missing_column_failure :
    pivot_with_total [lonely_cash_row] =
      Except.error "KeyError: missing payment type column" := rfl

/-! ## `create_time_summaries` never derives a label (C8) -/

/-- A dataframe holding one dated CASH record and no derived week column. -/
def sample_df : DF := ⟨[rA], none⟩

/-- Claim C8 failing input evaluated: the monthly `groupby` index carries
the name `Fees Paid Date` twice (both `dt.year` and `dt.month` keep the
source column name), so `create_time_summaries` raises at `reset_index`
before building a single period label, leaving the frame untouched. -/
theorem create_time_summaries_raises :
    create_time_summaries sample_df =
      (Except.error "cannot insert Fees Paid Date, already exists",
        sample_df) := rfl

/-! ## Pivot row order (C9) -/

/-- Monthly-style bucket rows whose grouping order puts January before
February and in which all three payment types occur. -/
def pivot_demo_rows : List PeriodRow :=
  [⟨"January 2024", PaymentType.CASH, 100⟩,
    ⟨"January 2024", PaymentType.ONLINE, 50⟩,
    ⟨"January 2024", PaymentType.OTHER, 5⟩,
    ⟨"February 2024", PaymentType.CASH, 20⟩]

/-- The pivot output on `pivot_demo_rows`. -/
def pivot_demo_result : List PivotRow :=
  [⟨"February 2024", 20, 0, 0, 20⟩,
    ⟨"January 2024", 100, 50, 5, 155⟩]

/-- Claim C9 counterexample: the input's grouping order lists January 2024
before February 2024, yet the pivot emits February 2024 first — the rows are
re-sorted by period label, not kept in grouping order. -/
theorem pivot_order_counterexample :
    pivot_demo_rows.map PeriodRow.period =
      ["January 2024", "January 2024", "January 2024", "February 2024"] ∧
    (pivot_with_total pivot_demo_rows).map (fun l => l.map PivotRow.period) =
      Except.ok ["February 2024", "January 2024"] ∧
    (Except.ok ["February 2024", "January 2024"] :
        Except String (List String)) ≠
      Except.ok ["January 2024", "February 2024"] := by
  refine ⟨rfl, rfl, by simp⟩

/-- Claim C9 amended: the emitted pivot rows are the distinct period labels
of the input rows sorted in ascending lexicographic label order (the
`pivot_table` index sort), one row per distinct label. -/
theorem pivot_order_sorted_amended (rows : List PeriodRow)
    (l : List PivotRow) (h : pivot_with_total rows = Except.ok l) :
    List.Pairwise (· ≤ ·) (l.map PivotRow.period) ∧
    (l.map PivotRow.period).Nodup ∧
    (∀ p : String, p ∈ l.map PivotRow.period ↔ p ∈ rows.map PeriodRow.period) := by
  simp only [pivot_with_total] at h
  split_ifs at h
  rw [Except.ok.injEq] at h
  have hmap : l.map PivotRow.period =
      sortedDedupBy strLtB strEqB (rows.map PeriodRow.period) := by
    rw [← h, List.map_map]
    show (sortedDedupBy strLtB strEqB (rows.map PeriodRow.period)).map
      (fun p => p) =
      sortedDedupBy strLtB strEqB (rows.map PeriodRow.period)
    simp
  rw [hmap]
  refine ⟨(pairwise_sortedDedupBy strLtB strEqB strLtB_iff strEqB_iff
      _).imp le_of_lt,
    (pairwise_sortedDedupBy strLtB strEqB strLtB_iff strEqB_iff _).imp
      ne_of_lt,
    fun p => mem_sortedDedupBy strLtB strEqB strEqB_iff _ p⟩

/-- Claim C9 amended witness: the demo pivot output is label-sorted,
duplicate-free, and has exactly the periods of the demo input. -/
theorem pivot_order_sorted_amended_witness :
    List.Pairwise (· ≤ ·) (pivot_demo_result.map PivotRow.period) ∧
    (pivot_demo_result.map PivotRow.period).Nodup ∧
    (∀ p : String, p ∈ pivot_demo_result.map PivotRow.period ↔
      p ∈ pivot_demo_rows.map PeriodRow.period) :=
  pivot_order_sorted_amended pivot_demo_rows pivot_demo_result rfl

/-! ## The week-column mutation (C10) -/

/-- Claim C10 counterexample: the week-number attachment of line 46 changes
the dataframe it is applied to — and in `create_time_summaries` it is
applied to the caller's shared frame, not to a working copy. -/
theorem week_assign_mutates_counterexample :
    week_assign sample_df ≠ sample_df := by
  intro hEq
  have h2 := congrArg DF.weekCol hEq
  simp [week_assign, sample_df] at h2

/-- Claim C10 amended: in the code as executed, the shared frame is left
unchanged only because `create_time_summaries` raises before reaching the
assignment of line 46; the assignment itself, when applied, mutates the
frame it receives (which the source passes by reference, no copy). -/
theorem week_mutation_amended (df : DF) :
    (create_time_summaries df).2 = df ∧
    (df.weekCol = none → week_assign df ≠ df) := by
  refine ⟨rfl, fun h hEq => ?_⟩
  have h2 := congrArg DF.weekCol hEq
  simp [week_assign, h] at h2

/-- Claim C10 amended witness at the sample frame. -/
theorem week_mutation_amended_witness :
    (create_time_summaries sample_df).2 = sample_df ∧
    week_assign sample_df ≠ sample_df :=
  ⟨(week_mutation_amended sample_df).1,
    (week_mutation_amended sample_df).2 rfl⟩

end SchoolFees
